import Mathlib

/-!
Verification of the record-synthesis engine of the improvar VCF generator
(src/improvar/__init__.py) against its natural-language specification.

The Python source is shallowly embedded below.  Randomness is made explicit:
every call to the process-global random source is replaced by an oracle
argument (a natural number, a list of naturals, or a function of draw
indices); a uniform oracle induces the distribution of the Python code.
Python exceptions are modelled by the `Except` monad with the `PyErr` type.
-/

namespace Improvar

/-- Python exception outcomes raised by the embedded functions. -/
inductive PyErr
  | notImplementedError
  | typeError
  | valueError
  | attributeError
  | tooRestrictiveContigs
deriving DecidableEq, Repr

/-- A value generated for a VCF field.  Floats are modelled by the raw random
draw, since no property of this development inspects a float value. -/
inductive VcfVal
  | int (n : Nat)
  | float (raw : Nat)
  | char (c : Char)
  | str (s : String)
deriving DecidableEq, Repr

/-- The declared Number of a VCF header field as pysam exposes it: either a
Python int or a string specifier such as "A", "R", "G" or ".". -/
inductive HeaderNumber
  | int (n : Nat)
  | str (s : String)
deriving DecidableEq, Repr

/-- The gt_opts argument of data_from_vcf_type.  The source enum
GenotypeOption has members het, hom-alt and hom-ref; the parameter may also
be the Python default None (pyNone), and, because Python is dynamically
typed, any other value (otherValue).  The dispatch in the source is an
if/elif/else chain whose else branch receives pyNone and otherValue alike. -/
inductive GtOpts
  | het
  | homAlt
  | homRef
  | pyNone
  | otherValue
deriving DecidableEq, Repr

/-- Model of random.choice over a list: the oracle r picks the index
r % length.  On the empty list Python raises; the default d is returned
instead, and every use below is shown to act on a nonempty list. -/
def pyChoice (l : List α) (d : α) (r : Nat) : α :=
  l.getD (r % l.length) d

/-- Model of random.shuffle: the oracle rs drives a selection shuffle that
repeatedly extracts the element at a random index.  Its output is always a
permutation of the input, and with a uniform oracle every permutation is
reachable, which is the documented contract of random.shuffle. -/
def shuffleOracle [DecidableEq α] (d : α) : List Nat → List α → List α
  | _, [] => []
  | [], l => l
  | r :: rs, x :: xs =>
    let c := pyChoice (x :: xs) d r
    c :: shuffleOracle d rs ((x :: xs).erase c)

/-- The nonempty suffixes of a list followed by the empty suffix, in order:
the iteration structure of itertools.combinations_with_replacement. -/
def suffixesOf : List Nat → List (List Nat)
  | [] => [[]]
  | x :: xs => (x :: xs) :: suffixesOf xs

/-- Model of list(itertools.combinations_with_replacement(l, r)): all
r-length non-decreasing (by position in l) selections with repetition, in
the exact lexicographic-by-index order itertools documents and produces. -/
def cwr : Nat → List Nat → List (List Nat)
  | 0, _ => [[]]
  | r + 1, l =>
    ((suffixesOf l).map fun s =>
      match s with
      | [] => ([] : List (List Nat))
      | x :: xs => (cwr r (x :: xs)).map fun c => x :: c).flatten

/-- calc_multiplicity from the source: the declared Number of the field
named key, resolved against a record with numAlts alternate alleles and
numAlleles total alleles.  GT is always 1; a fixed int is returned
unchanged; "A" resolves to numAlts, "R" to numAlleles, "." to none (the
Python None); anything else raises NotImplementedError. -/
def calc_multiplicity (key : String) (number : HeaderNumber)
    (numAlts numAlleles : Nat) : Except PyErr (Option Nat) :=
  if key = "GT" then .ok (some 1)
  else
    match number with
    | .int n => .ok (some n)
    | .str s =>
      if s = "A" then .ok (some numAlts)
      else if s = "R" then .ok (some numAlleles)
      else if s = "." then .ok none
      else .error .notImplementedError

/-- The 52-letter mixed-case alphabet string.ascii_uppercase +
string.ascii_lowercase of the source. -/
def char_set : List Char :=
  "ABCDEFGHIJKLMNOPQRSTUVWXYZabcdefghijklmnopqrstuvwxyz".toList

/-- One iteration of the value loop of data_from_vcf_type: the body of
for i in range(multiplicity), which tests the header type against each of
Integer, Float, Flag, Character and String.  A Flag raises
NotImplementedError; an unknown type appends nothing (none). -/
def synthOne (headerType : String) (rnd : Nat → Nat → Nat) (i : Nat) :
    Except PyErr (Option VcfVal) :=
  if headerType = "Integer" then .ok (some (.int (rnd i 0 % 101)))
  else if headerType = "Float" then .ok (some (.float (rnd i 0)))
  else if headerType = "Flag" then .error .notImplementedError
  else if headerType = "Character" then
    .ok (some (.char (char_set.getD (rnd i 0 % 52) 'A')))
  else if headerType = "String" then
    .ok (some (.str (String.mk ((List.range 10).map fun j =>
      char_set.getD (rnd i (j + 1) % 52) 'A'))))
  else .ok none

/-- The value loop of data_from_vcf_type: m iterations starting at index i,
accumulating the appended results, propagating the first raised error. -/
def synthVals (headerType : String) (rnd : Nat → Nat → Nat) :
    Nat → Nat → Except PyErr (List VcfVal)
  | _, 0 => .ok []
  | i, m + 1 =>
    match synthOne headerType rnd i with
    | .error e => .error e
    | .ok v =>
      match synthVals headerType rnd (i + 1) m with
      | .error e => .error e
      | .ok rest =>
        .ok (match v with
          | some x => x :: rest
          | none => rest)

/-- data_from_vcf_type from the source.  The field named key lives in
section sec ("fmt" or "info") with declared type headerType and declared
Number number; the record has numAlts alternate and numAlleles total
alleles.  The oracles rc (random.choice), sh (random.shuffle) and rnd (the
per-element value draws) stand for the global random source.  Following the
source, the multiplicity is computed first (so an unsupported Number raises
before anything else), then a fmt field named GT dispatches on gt_opts, and
every other field runs the typed value loop; a None multiplicity reaches
range(None) and raises TypeError, and the het branch of a record with no
alleles reaches combinations_with_replacement with a negative r and raises
ValueError. -/
def data_from_vcf_type (key sec headerType : String) (number : HeaderNumber)
    (numAlts numAlleles : Nat) (gt_opts : GtOpts)
    (rc : Nat) (sh : List Nat) (rnd : Nat → Nat → Nat) :
    Except PyErr (List VcfVal) :=
  match calc_multiplicity key number numAlts numAlleles with
  | .error e => .error e
  | .ok multiplicity =>
    if sec = "fmt" ∧ key = "GT" then
      match gt_opts with
      | .het =>
        if numAlleles = 0 then .error .valueError
        else
          let gt := 0 ::
            pyChoice (cwr (numAlleles - 1) (List.range' 1 (numAlleles - 1))) [] rc
          .ok ((shuffleOracle 0 sh gt).map VcfVal.int)
      | .homAlt => .ok (List.replicate numAlleles (VcfVal.int 1))
      | .homRef => .ok (List.replicate numAlleles (VcfVal.int 0))
      | _ =>
        .ok ((pyChoice (cwr numAlleles (List.range numAlleles)) [] rc).map
          VcfVal.int)
    else
      match multiplicity with
      | none => .error .typeError
      | some m => synthVals headerType rnd 0 m

/-- The list of nucleotide symbols of random_base. -/
def bases : List Char := ['A', 'T', 'C', 'G', 'N']

/-- random_base from the source: random.choice over the five nucleotide
symbols, driven by the oracle r. -/
def random_base (r : Nat) : Char :=
  pyChoice bases 'A' r

/-- The allele list built by generate_record:
alleles=[random_base(), random_base()], one draw per entry. -/
def generate_record_alleles (r1 r2 : Nat) : List Char :=
  [random_base r1, random_base r2]

/-- random_contig from the source.  Contig patterns are modelled by their
match predicate (re.Pattern.match is anchored at the start of the string).
The source first raises ValueError when both filters are set; the exclude
branch removes matching names; the include branch, as written in the
source, filters with contig_exclude — which is None whenever this branch is
reached — so Python evaluates None.match(contig) and raises AttributeError
on the first contig (with an empty contig set the comprehension evaluates
nothing and the empty-set error is raised instead); an empty candidate set
raises the too-restrictive error; otherwise random.choice picks a contig. -/
def random_contig (contigs : List String)
    (contig_exclude contig_include : Option (String → Bool)) (rc : Nat) :
    Except PyErr String :=
  if contig_exclude.isSome ∧ contig_include.isSome then
    .error .valueError
  else
    let afterExclude :=
      match contig_exclude with
      | some p => contigs.filter fun c => !(p c)
      | none => contigs
    match contig_include, contig_exclude with
    | some _, none =>
      if afterExclude.isEmpty then .error .tooRestrictiveContigs
      else .error .attributeError
    | some _, some p =>
      let afterInclude := afterExclude.filter fun c => p c
      if afterInclude.isEmpty then .error .tooRestrictiveContigs
      else .ok (pyChoice afterInclude "" rc)
    | none, _ =>
      if afterExclude.isEmpty then .error .tooRestrictiveContigs
      else .ok (pyChoice afterExclude "" rc)

/-! Helper lemmas about the random-source models. -/

theorem getD_mem (l : List α) (i : Nat) (d : α) (h : i < l.length) :
    l.getD i d ∈ l := by
  induction l generalizing i with
  | nil => simp at h
  | cons x xs ih =>
    cases i with
    | zero => simp
    | succ j =>
      rw [List.getD_cons_succ]
      exact List.mem_cons_of_mem _ (ih j (by simp at h; omega))

theorem pyChoice_mem (l : List α) (d : α) (r : Nat) (h : l ≠ []) :
    pyChoice l d r ∈ l :=
  getD_mem l _ d (Nat.mod_lt r (List.length_pos.mpr h))

theorem shuffleOracle_perm [DecidableEq α] (d : α) :
    ∀ (rs : List Nat) (l : List α), (shuffleOracle d rs l).Perm l
  | [], [] => by simp [shuffleOracle]
  | [], _ :: _ => List.Perm.refl _
  | _ :: _, [] => by simp [shuffleOracle]
  | r :: rs, x :: xs => by
    have hmem : pyChoice (x :: xs) d r ∈ x :: xs := pyChoice_mem _ _ _ (by simp)
    have h1 := shuffleOracle_perm d rs ((x :: xs).erase (pyChoice (x :: xs) d r))
    exact (h1.cons _).trans (List.perm_cons_erase hmem).symm

theorem suffixesOf_subset :
    ∀ (l s : List Nat), s ∈ suffixesOf l → ∀ x ∈ s, x ∈ l
  | [], s, hs => by
    simp only [suffixesOf, List.mem_singleton] at hs
    subst hs
    simp
  | y :: ys, s, hs => by
    simp only [suffixesOf, List.mem_cons] at hs
    rcases hs with rfl | hs
    · intro x hx; exact hx
    · intro x hx; exact List.mem_cons_of_mem _ (suffixesOf_subset ys s hs x hx)

theorem self_mem_suffixesOf : ∀ l : List Nat, l ∈ suffixesOf l
  | [] => by simp [suffixesOf]
  | _ :: _ => by simp [suffixesOf]

theorem cwr_mem :
    ∀ (r : Nat) (l c : List Nat), c ∈ cwr r l → c.length = r ∧ ∀ x ∈ c, x ∈ l
  | 0, l, c, hc => by
    simp only [cwr, List.mem_singleton] at hc
    subst hc
    simp
  | r + 1, l, c, hc => by
    simp only [cwr, List.mem_flatten, List.mem_map] at hc
    obtain ⟨comp, ⟨s, hs, rfl⟩, hcomp⟩ := hc
    rcases s with _ | ⟨x, xs⟩
    · simp at hcomp
    · simp only [List.mem_map] at hcomp
      obtain ⟨c0, hc0, rfl⟩ := hcomp
      have ih := cwr_mem r (x :: xs) c0 hc0
      refine ⟨by simp [ih.1], ?_⟩
      intro y hy
      rcases List.mem_cons.mp hy with rfl | hy
      · exact suffixesOf_subset l (y :: xs) hs y (by simp)
      · exact suffixesOf_subset l (x :: xs) hs y (ih.2 y hy)

theorem cwr_exists_mem : ∀ (r : Nat) (l : List Nat), l ≠ [] → ∃ c, c ∈ cwr r l
  | 0, l, _ => ⟨[], by simp [cwr]⟩
  | r + 1, [], h => absurd rfl h
  | r + 1, x :: xs, _ => by
    rcases cwr_exists_mem r (x :: xs) (by simp) with ⟨c, hc⟩
    refine ⟨x :: c, ?_⟩
    simp only [cwr, List.mem_flatten]
    exact ⟨(cwr r (x :: xs)).map fun c => x :: c,
      List.mem_map_of_mem _ (self_mem_suffixesOf (x :: xs)),
      List.mem_map_of_mem _ hc⟩

theorem pyChoice_cwr_mem (r : Nat) (l : List Nat) (rc : Nat)
    (h : l ≠ [] ∨ r = 0) :
    pyChoice (cwr r l) [] rc ∈ cwr r l := by
  rcases h with h | rfl
  · rcases cwr_exists_mem r l h with ⟨c, hc⟩
    exact pyChoice_mem _ _ _ (List.ne_nil_of_mem hc)
  · exact pyChoice_mem _ _ _ (by simp [cwr])

theorem pyChoice_cwr_range_length (n rc : Nat) :
    (pyChoice (cwr n (List.range n)) [] rc).length = n := by
  have hmem : pyChoice (cwr n (List.range n)) [] rc ∈ cwr n (List.range n) := by
    apply pyChoice_cwr_mem
    cases n with
    | zero => right; rfl
    | succ k =>
      left
      intro hnil
      have := congrArg List.length hnil
      simp at this
  exact (cwr_mem _ _ _ hmem).1

/-! Helper lemmas about the value loop. -/

theorem synthOne_known (t : String) (rnd : Nat → Nat → Nat) (i : Nat)
    (h : t = "Integer" ∨ t = "Float" ∨ t = "Character" ∨ t = "String") :
    ∃ v, synthOne t rnd i = .ok (some v) := by
  rcases h with rfl | rfl | rfl | rfl <;> exact ⟨_, rfl⟩

theorem synthVals_known (t : String) (rnd : Nat → Nat → Nat)
    (h : t = "Integer" ∨ t = "Float" ∨ t = "Character" ∨ t = "String") :
    ∀ (m i : Nat), ∃ vl, synthVals t rnd i m = .ok vl ∧ vl.length = m
  | 0, _ => ⟨[], rfl, rfl⟩
  | m + 1, i => by
    rcases synthOne_known t rnd i h with ⟨v, hv⟩
    rcases synthVals_known t rnd h m (i + 1) with ⟨vl, hvl, hlen⟩
    refine ⟨v :: vl, ?_, by simp [hlen]⟩
    simp [synthVals, hv, hvl]

theorem synthVals_flag (rnd : Nat → Nat → Nat) (i m : Nat) (h : 0 < m) :
    synthVals "Flag" rnd i m = .error .notImplementedError := by
  cases m with
  | zero => omega
  | succ m => simp [synthVals, synthOne]

theorem synthVals_unknown (t : String) (rnd : Nat → Nat → Nat)
    (h1 : t ≠ "Integer") (h2 : t ≠ "Float") (h3 : t ≠ "Flag")
    (h4 : t ≠ "Character") (h5 : t ≠ "String") :
    ∀ (m i : Nat), synthVals t rnd i m = .ok []
  | 0, _ => rfl
  | m + 1, i => by
    have ih := synthVals_unknown t rnd h1 h2 h3 h4 h5 m (i + 1)
    simp [synthVals, synthOne, h1, h2, h3, h4, h5, ih]

/-! Claim theorems. -/

/-- C8: calc_multiplicity returns 1 for the genotype field GT regardless of
the declared number, returns a fixed integer specifier unchanged, returns
the alternate-allele count for "A", the total allele count for "R", the
unbounded marker (none) for ".", and raises NotImplementedError for every
other specifier value. -/
theorem calc_multiplicity_spec (key : String) (number : HeaderNumber)
    (alts alleles k : Nat) (s : String) :
    (calc_multiplicity "GT" number alts alleles = .ok (some 1)) ∧
    (key ≠ "GT" → calc_multiplicity key (.int k) alts alleles = .ok (some k)) ∧
    (key ≠ "GT" → calc_multiplicity key (.str "A") alts alleles = .ok (some alts)) ∧
    (key ≠ "GT" → calc_multiplicity key (.str "R") alts alleles = .ok (some alleles)) ∧
    (key ≠ "GT" → calc_multiplicity key (.str ".") alts alleles = .ok none) ∧
    (key ≠ "GT" → s ≠ "A" → s ≠ "R" → s ≠ "." →
      calc_multiplicity key (.str s) alts alleles = .error .notImplementedError) :=
  ⟨by simp [calc_multiplicity],
    fun h => by simp [calc_multiplicity, h],
    fun h => by simp [calc_multiplicity, h],
    fun h => by simp [calc_multiplicity, h],
    fun h => by simp [calc_multiplicity, h],
    fun h hA hR hD => by simp [calc_multiplicity, h, hA, hR, hD]⟩

/-- Witness for C8 at a concrete non-genotype key and each specifier form. -/
theorem calc_multiplicity_spec_witness :
    calc_multiplicity "GT" (.str "G") 1 2 = .ok (some 1) ∧
    calc_multiplicity "DP" (.int 3) 1 2 = .ok (some 3) ∧
    calc_multiplicity "DP" (.str "A") 1 2 = .ok (some 1) ∧
    calc_multiplicity "DP" (.str "R") 1 2 = .ok (some 2) ∧
    calc_multiplicity "DP" (.str ".") 1 2 = .ok none ∧
    calc_multiplicity "DP" (.str "G") 1 2 = .error .notImplementedError := by
  have h := calc_multiplicity_spec "DP" (.str "G") 1 2 3 "G"
  exact ⟨h.1, h.2.1 (by decide), h.2.2.1 (by decide), h.2.2.2.1 (by decide),
    h.2.2.2.2.1 (by decide),
    h.2.2.2.2.2 (by decide) (by decide) (by decide) (by decide)⟩

/-- C9: supplying both an include and an exclude pattern makes random_contig
raise ValueError for every header and every oracle, before any filtering: no
contig is ever returned and no other error is reached. -/
theorem random_contig_both_filters_error (contigs : List String)
    (pexc pinc : String → Bool) (rc : Nat) :
    random_contig contigs (some pexc) (some pinc) rc = .error .valueError := by
  simp [random_contig]

/-- C1: evaluation at the failing input.  With a header holding the single
contig "chr1" and only an include pattern supplied (one matching "chr1" at
the start of the string), the include branch of the source filters with the
absent exclude pattern, so the call raises AttributeError instead of
retaining the matching contig and returning it. -/
theorem random_contig_include_alone_attribute_error :
    random_contig ["chr1"] none (some fun s => "chr".isPrefixOf s) 0 =
      .error .attributeError := rfl

/-- C2 counterexample: an info Flag field declared with Number 0 (the
standard arity of a flag) is synthesized without raising: the value loop
runs zero iterations and the empty value-tuple is returned. -/
theorem flag_number_zero_returns_empty_tuple :
    data_from_vcf_type "FL" "info" "Flag" (.int 0) 1 2 .pyNone 0 []
      (fun _ _ => 0) = .ok [] := rfl

/-- C2 amended: for a non-genotype Flag field, synthesis raises
NotImplementedError exactly when the resolved multiplicity is a positive
integer; when the multiplicity resolves to 0 the empty tuple is returned. -/
theorem flag_field_amended (key sec : String) (number : HeaderNumber)
    (alts alleles : Nat) (gt : GtOpts) (rc : Nat) (sh : List Nat)
    (rnd : Nat → Nat → Nat) (m : Nat)
    (hgt : ¬(sec = "fmt" ∧ key = "GT"))
    (hm : calc_multiplicity key number alts alleles = .ok (some m)) :
    (0 < m → data_from_vcf_type key sec "Flag" number alts alleles gt rc sh rnd =
      .error .notImplementedError) ∧
    (m = 0 → data_from_vcf_type key sec "Flag" number alts alleles gt rc sh rnd =
      .ok []) := by
  constructor
  · intro hpos
    simp only [data_from_vcf_type, hm]
    rw [if_neg hgt]
    exact synthVals_flag rnd 0 m hpos
  · rintro rfl
    simp only [data_from_vcf_type, hm]
    rw [if_neg hgt]
    rfl

/-- Witness for C2 amended: a Flag field with Number 1 raises while a Flag
field with Number 0 yields the empty tuple. -/
theorem flag_field_amended_witness :
    (data_from_vcf_type "FL" "info" "Flag" (.int 1) 1 2 .pyNone 0 []
      (fun _ _ => 0) = .error .notImplementedError) ∧
    (data_from_vcf_type "F2" "info" "Flag" (.int 0) 1 2 .pyNone 0 []
      (fun _ _ => 0) = .ok []) :=
  ⟨(flag_field_amended "FL" "info" (.int 1) 1 2 .pyNone 0 [] (fun _ _ => 0) 1
      (by decide) rfl).1 (by decide),
    (flag_field_amended "F2" "info" (.int 0) 1 2 .pyNone 0 [] (fun _ _ => 0) 0
      (by decide) rfl).2 rfl⟩

/-- C3 counterexample: an info field with the unknown primitive type
"Widget" and fixed Number 2 is synthesized without raising: no branch of
the value loop matches, so the empty value-tuple is returned. -/
theorem unknown_type_returns_empty_tuple :
    data_from_vcf_type "XX" "info" "Widget" (.int 2) 1 2 .pyNone 0 []
      (fun _ _ => 0) = .ok [] := rfl

/-- C3 amended: for a non-genotype field whose declared type is none of
Integer, Float, Flag, Character and String, and whose multiplicity
resolves to an integer, synthesis silently returns the empty tuple rather
than raising. -/
theorem unknown_type_amended (key sec t : String) (number : HeaderNumber)
    (alts alleles : Nat) (gt : GtOpts) (rc : Nat) (sh : List Nat)
    (rnd : Nat → Nat → Nat) (m : Nat)
    (hgt : ¬(sec = "fmt" ∧ key = "GT"))
    (h1 : t ≠ "Integer") (h2 : t ≠ "Float") (h3 : t ≠ "Flag")
    (h4 : t ≠ "Character") (h5 : t ≠ "String")
    (hm : calc_multiplicity key number alts alleles = .ok (some m)) :
    data_from_vcf_type key sec t number alts alleles gt rc sh rnd = .ok [] := by
  simp only [data_from_vcf_type, hm]
  rw [if_neg hgt]
  exact synthVals_unknown t rnd h1 h2 h3 h4 h5 m 0

/-- Witness for C3 amended at the unknown type "Widget" with Number 2. -/
theorem unknown_type_amended_witness :
    data_from_vcf_type "YY" "info" "Widget" (.int 2) 1 2 .pyNone 0 []
      (fun _ _ => 0) = .ok [] :=
  unknown_type_amended "YY" "info" "Widget" (.int 2) 1 2 .pyNone 0 []
    (fun _ _ => 0) 2 (by decide) (by decide) (by decide) (by decide)
    (by decide) (by decide) rfl

/-- C4 counterexample: genotype synthesis invoked with a mode value outside
the GenotypeOption enum falls into the catch-all else branch and returns a
genotype tuple; no configuration error is raised. -/
theorem unrecognized_mode_returns_tuple :
    data_from_vcf_type "GT" "fmt" "String" (.int 1) 1 2 .otherValue 0 []
      (fun _ _ => 0) = .ok [.int 0, .int 0] := rfl

/-- C4 amended: an unrecognized genotype mode value is handled by the
catch-all else branch exactly like the unspecified mode: a genotype tuple
whose length is the total allele count is returned and no error is
raised. -/
theorem unrecognized_mode_amended (t : String) (number : HeaderNumber)
    (alts alleles : Nat) (rc : Nat) (sh : List Nat) (rnd : Nat → Nat → Nat) :
    ∃ l : List Nat,
      data_from_vcf_type "GT" "fmt" t number alts alleles .otherValue rc sh rnd =
        .ok (l.map VcfVal.int) ∧
      l.length = alleles ∧
      data_from_vcf_type "GT" "fmt" t number alts alleles .otherValue rc sh rnd =
        data_from_vcf_type "GT" "fmt" t number alts alleles .pyNone rc sh rnd :=
  ⟨pyChoice (cwr alleles (List.range alleles)) [] rc, rfl,
    pyChoice_cwr_range_length alleles rc, rfl⟩

/-- C5 counterexample: the per-sample genotype field GT, declared with the
usual fixed Number 1, is synthesized on a biallelic record as a value-tuple
of length 2, while calc_multiplicity reports 1 for it: the tuple length of
the genotype field does not equal the resolver output. -/
theorem gt_tuple_length_vs_resolver :
    data_from_vcf_type "GT" "fmt" "String" (.int 1) 1 2 .homRef 0 []
        (fun _ _ => 0) = .ok [.int 0, .int 0] ∧
    calc_multiplicity "GT" (.int 1) 1 2 = .ok (some 1) ∧
    ([VcfVal.int 0, VcfVal.int 0].length = 2) := ⟨rfl, rfl, rfl⟩

/-- C5 amended: for every non-genotype field whose declared type is
Integer, Float, Character or String and whose multiplicity resolves to an
integer m, the synthesized value-tuple has length m; in particular a field
with fixed arity k gets a tuple of length k.  The genotype field is the
exception (its tuple length is the allele count while the resolver reports
1), as are unknown-type fields (their tuple is always empty). -/
theorem value_tuple_length_amended (key sec t : String) (number : HeaderNumber)
    (alts alleles : Nat) (gt : GtOpts) (rc : Nat) (sh : List Nat)
    (rnd : Nat → Nat → Nat) (m : Nat)
    (hgt : ¬(sec = "fmt" ∧ key = "GT"))
    (ht : t = "Integer" ∨ t = "Float" ∨ t = "Character" ∨ t = "String")
    (hm : calc_multiplicity key number alts alleles = .ok (some m)) :
    ∃ vl, data_from_vcf_type key sec t number alts alleles gt rc sh rnd = .ok vl ∧
      vl.length = m := by
  rcases synthVals_known t rnd ht m 0 with ⟨vl, hvl, hlen⟩
  refine ⟨vl, ?_, hlen⟩
  simp only [data_from_vcf_type, hm]
  rw [if_neg hgt]
  exact hvl

/-- Witness for C5 amended: an info Integer field with fixed Number 3 gets
a value-tuple of length 3. -/
theorem value_tuple_length_amended_witness :
    ∃ vl, data_from_vcf_type "DP" "info" "Integer" (.int 3) 1 2 .pyNone 0 []
        (fun _ _ => 7) = .ok vl ∧ vl.length = 3 :=
  value_tuple_length_amended "DP" "info" "Integer" (.int 3) 1 2 .pyNone 0 []
    (fun _ _ => 7) 3 (by decide) (Or.inl rfl) rfl

/-- C6: for every record with at least one allele, every genotype mode
(het, hom-alt, hom-ref, the unspecified default and even unrecognized
values) and every state of the random source, the synthesized genotype
tuple has length equal to the total allele count of the record. -/
theorem genotype_length (t : String) (number : HeaderNumber)
    (alts alleles : Nat) (gt : GtOpts) (rc : Nat) (sh : List Nat)
    (rnd : Nat → Nat → Nat) (h : 1 ≤ alleles) :
    ∃ l, data_from_vcf_type "GT" "fmt" t number alts alleles gt rc sh rnd =
      .ok l ∧ l.length = alleles := by
  have h0 : ¬(alleles = 0) := by omega
  cases gt with
  | het =>
    have e : data_from_vcf_type "GT" "fmt" t number alts alleles .het rc sh rnd =
        if alleles = 0 then .error .valueError
        else .ok ((shuffleOracle 0 sh
          (0 :: pyChoice (cwr (alleles - 1) (List.range' 1 (alleles - 1))) [] rc)).map
            VcfVal.int) := rfl
    rw [e, if_neg h0]
    have hcombo : pyChoice (cwr (alleles - 1) (List.range' 1 (alleles - 1))) [] rc
        ∈ cwr (alleles - 1) (List.range' 1 (alleles - 1)) := by
      apply pyChoice_cwr_mem
      rcases alleles with _ | k
      · omega
      · rcases k with _ | k2
        · right; rfl
        · left
          intro hnil
          have := congrArg List.length hnil
          simp at this
    have hcl := (cwr_mem _ _ _ hcombo).1
    have hperm := shuffleOracle_perm 0 sh
      (0 :: pyChoice (cwr (alleles - 1) (List.range' 1 (alleles - 1))) [] rc)
    refine ⟨_, rfl, ?_⟩
    rw [List.length_map, hperm.length_eq]
    simp [hcl]
    omega
  | homAlt =>
    exact ⟨_, rfl, by simp⟩
  | homRef =>
    exact ⟨_, rfl, by simp⟩
  | pyNone =>
    refine ⟨_, rfl, ?_⟩
    rw [List.length_map]
    exact pyChoice_cwr_range_length alleles rc
  | otherValue =>
    refine ⟨_, rfl, ?_⟩
    rw [List.length_map]
    exact pyChoice_cwr_range_length alleles rc

/-- Witness for C6 on a biallelic record in het mode. -/
theorem genotype_length_witness :
    (1 ≤ 2) ∧
    ∃ l, data_from_vcf_type "GT" "fmt" "String" (.int 1) 1 2 .het 0 []
      (fun _ _ => 0) = .ok l ∧ l.length = 2 :=
  ⟨by decide,
    genotype_length "String" (.int 1) 1 2 .het 0 [] (fun _ _ => 0) (by decide)⟩

/-- C7: under hom-ref mode every synthesized genotype element equals 0 and
under hom-alt mode every element equals 1, for every record and random
state; under het mode, whenever the record has at least two alleles, the
genotype tuple contains at least one 0 and at least one non-zero allele
index. -/
theorem genotype_mode_values (t : String) (number : HeaderNumber)
    (alts alleles : Nat) (rc : Nat) (sh : List Nat) (rnd : Nat → Nat → Nat) :
    (∀ l, data_from_vcf_type "GT" "fmt" t number alts alleles .homRef rc sh rnd =
      .ok l → ∀ v ∈ l, v = VcfVal.int 0) ∧
    (∀ l, data_from_vcf_type "GT" "fmt" t number alts alleles .homAlt rc sh rnd =
      .ok l → ∀ v ∈ l, v = VcfVal.int 1) ∧
    (2 ≤ alleles →
      ∀ l, data_from_vcf_type "GT" "fmt" t number alts alleles .het rc sh rnd =
        .ok l → VcfVal.int 0 ∈ l ∧ ∃ v ∈ l, v ≠ VcfVal.int 0) := by
  refine ⟨?_, ?_, ?_⟩
  · intro l hl v hv
    have e : data_from_vcf_type "GT" "fmt" t number alts alleles .homRef rc sh rnd =
        .ok (List.replicate alleles (VcfVal.int 0)) := rfl
    rw [e] at hl
    obtain rfl : List.replicate alleles (VcfVal.int 0) = l := by
      simpa using hl
    exact (List.mem_replicate.mp hv).2
  · intro l hl v hv
    have e : data_from_vcf_type "GT" "fmt" t number alts alleles .homAlt rc sh rnd =
        .ok (List.replicate alleles (VcfVal.int 1)) := rfl
    rw [e] at hl
    obtain rfl : List.replicate alleles (VcfVal.int 1) = l := by
      simpa using hl
    exact (List.mem_replicate.mp hv).2
  · intro h2 l hl
    have h0 : ¬(alleles = 0) := by omega
    have e : data_from_vcf_type "GT" "fmt" t number alts alleles .het rc sh rnd =
        if alleles = 0 then .error .valueError
        else .ok ((shuffleOracle 0 sh
          (0 :: pyChoice (cwr (alleles - 1) (List.range' 1 (alleles - 1))) [] rc)).map
            VcfVal.int) := rfl
    rw [e, if_neg h0] at hl
    obtain rfl : ((shuffleOracle 0 sh
        (0 :: pyChoice (cwr (alleles - 1) (List.range' 1 (alleles - 1))) [] rc)).map
          VcfVal.int) = l := by
      simpa using hl
    have hcombo : pyChoice (cwr (alleles - 1) (List.range' 1 (alleles - 1))) [] rc
        ∈ cwr (alleles - 1) (List.range' 1 (alleles - 1)) := by
      apply pyChoice_cwr_mem
      left
      intro hnil
      have := congrArg List.length hnil
      simp at this
      omega
    have hperm := shuffleOracle_perm 0 sh
      (0 :: pyChoice (cwr (alleles - 1) (List.range' 1 (alleles - 1))) [] rc)
    constructor
    · exact List.mem_map_of_mem _ (hperm.mem_iff.mpr (by simp))
    · have hcl := (cwr_mem _ _ _ hcombo).1
      have hne : pyChoice (cwr (alleles - 1) (List.range' 1 (alleles - 1))) [] rc ≠ [] := by
        intro hnil
        rw [hnil] at hcl
        simp at hcl
        omega
      rcases List.exists_mem_of_ne_nil _ hne with ⟨x, hx⟩
      have hx1 : 1 ≤ x := by
        have := (cwr_mem _ _ _ hcombo).2 x hx
        exact (List.mem_range'_1.mp this).1
      refine ⟨VcfVal.int x, List.mem_map_of_mem _ (hperm.mem_iff.mpr ?_), by
        simp
        omega⟩
      exact List.mem_cons_of_mem _ hx

/-- Witness for C7 on a biallelic record: the hom-ref output is all zeros
and a het output contains a 0 and a non-zero index. -/
theorem genotype_mode_values_witness :
    (∀ v ∈ [VcfVal.int 0, VcfVal.int 0], v = VcfVal.int 0) ∧
    (VcfVal.int 0 ∈ [VcfVal.int 0, VcfVal.int 1] ∧
      ∃ v ∈ [VcfVal.int 0, VcfVal.int 1], v ≠ VcfVal.int 0) := by
  have h := genotype_mode_values "String" (.int 1) 1 2 0 [] (fun _ _ => 0)
  exact ⟨h.1 [VcfVal.int 0, VcfVal.int 0] rfl,
    h.2.2 (by decide) [VcfVal.int 0, VcfVal.int 1] rfl⟩

/-- C10: the allele list built by generate_record has exactly two entries,
each a symbol of bases; the map from a pair of uniform independent oracle
draws to the allele pair is onto bases times bases and injective on
Fin 5 times Fin 5, so the two entries are independent uniform draws, and
in particular equal reference and alternate symbols are reachable: no
distinctness is enforced. -/
theorem alleles_two_uniform_bases (r1 r2 : Nat) :
    ((generate_record_alleles r1 r2).length = 2 ∧
      ∀ c ∈ generate_record_alleles r1 r2, c ∈ bases) ∧
    (∀ b1 ∈ bases, ∀ b2 ∈ bases,
      ∃ s1 s2 : Fin 5, generate_record_alleles s1 s2 = [b1, b2]) ∧
    (∀ s1 s2 u1 u2 : Fin 5,
      generate_record_alleles s1 s2 = generate_record_alleles u1 u2 →
        s1 = u1 ∧ s2 = u2) := by
  refine ⟨⟨rfl, ?_⟩, by decide, by decide⟩
  intro c hc
  have hb : ∀ r : Nat, random_base r ∈ bases := fun r =>
    pyChoice_mem _ _ _ (by decide)
  simp only [generate_record_alleles, List.mem_cons, List.mem_singleton,
    List.not_mem_nil, or_false] at hc
  rcases hc with rfl | rfl <;> exact hb _

/-- Witness for C10: the allele pair with both entries equal to the symbol
N is reachable, and a concrete allele list has length 2. -/
theorem alleles_two_uniform_bases_witness :
    (generate_record_alleles 7 7).length = 2 ∧
    ∃ s1 s2 : Fin 5, generate_record_alleles s1 s2 = ['N', 'N'] := by
  have h := alleles_two_uniform_bases 7 7
  exact ⟨h.1.1, h.2.1 'N' (by decide) 'N' (by decide)⟩

end Improvar
